import Mathlib

/-!
Verification development for the terminal MCP server
(`src/p1_terminal_mcp_server.py`).

The Python module is embedded shallowly:

* pure string manipulation becomes Lean functions on `String` / `List Char`;
* wall-clock instants (`time.time()`) are integers in an arbitrarily fine
  time unit, supplied as inputs (only comparisons and differences of instants
  matter to the program);
* the environment (what `subprocess.Popen` returns on the k-th call, whether
  `terminate`/`kill` raise, what `select`/`readline` deliver on each loop
  iteration) is an explicit oracle argument;
* Python exceptions are `Except String`; a raised, uncaught exception is the
  `.error` constructor carrying the exception's message;
* a Python dict result becomes a structure; a key that may be absent from the
  dict becomes an `Option` field whose `none` means "key absent".

The read loop `_read_until_done` consumes a finite trace of loop iterations
(`IterEvent`); exhausting the trace before the loop exits yields `none`
("the model trace ended while the loop was still running").
-/

namespace P1

/-- Python `str.strip()` on the strings this server handles: drop leading and
trailing whitespace characters. -/
def pyStrip (s : String) : String :=
  String.mk ((s.data.dropWhile Char.isWhitespace).reverse.dropWhile Char.isWhitespace).reverse

/-- Python `cmd.rstrip("\n")`: drop trailing newline characters. -/
def pyRstripNL (s : String) : String :=
  String.mk (s.data.reverse.dropWhile (fun c => c = '\n')).reverse

/-- Python `line.startswith(m)`: `m`'s characters are a prefix of `line`'s. -/
def pyStartsWith (line pre : String) : Bool :=
  pre.data.isPrefixOf line.data

/-- The text after the first `':'` of `s`, i.e. Python `s.split(":", 1)[1]`.
`none` when `s` holds no colon — in the source that indexing raises
`IndexError`. -/
def afterFirstColon (s : String) : Option String :=
  if ':' ∈ s.data then
    some (String.mk ((s.data.dropWhile (fun c => ¬ (c = ':'))).tail))
  else
    none

/-- Value of a nonempty all-decimal-digit character list, most significant
digit first. -/
def digitsVal (l : List Char) : Option Nat :=
  l.foldl
    (fun acc c => acc.bind (fun n => if c.isDigit then some (n * 10 + (c.toNat - 48)) else none))
    (some 0)

/-- Nonempty digit strings only. -/
def pyDigits (l : List Char) : Option Nat :=
  if l.isEmpty then none else digitsVal l

/-- Python `int(s)` on an already-stripped string: an optional sign followed by
decimal digits; anything else raises `ValueError`, modelled as `none`. -/
def pyInt (s : String) : Option Int :=
  match s.data with
  | '-' :: rest => (pyDigits rest).map (fun n => -(n : Int))
  | '+' :: rest => (pyDigits rest).map (fun n => (n : Int))
  | l => (pyDigits l).map (fun n => (n : Int))

/-- `MAX_OUTPUT_CHARS` with its default configuration value (`os.getenv
"P1_MAX_OUTPUT_CHARS"` defaulting to `"20000"`). -/
def MAX_OUTPUT_CHARS : Nat := 20000

/-- `MAX_OUTPUT_LINES` with its default configuration value (`os.getenv
"P1_MAX_OUTPUT_LINES"` defaulting to `"800"`). -/
def MAX_OUTPUT_LINES : Nat := 800

/-- The two configured output caps, read once at startup. -/
structure Config where
  maxChars : Nat
  maxLines : Nat
deriving Repr, DecidableEq

/-- The default configuration. -/
def defaultConfig : Config := ⟨MAX_OUTPUT_CHARS, MAX_OUTPUT_LINES⟩

/-- `cwd_marker = f"__MCP_CWD_{uid}__"`. -/
def cwdMarker (uid : String) : String := "__MCP_CWD_" ++ uid ++ "__"

/-- `done_marker = f"__MCP_DONE_{uid}__"`. -/
def doneMarker (uid : String) : String := "__MCP_DONE_" ++ uid ++ "__"

/-- The dict built and returned by `_read_until_done`: keys `ok`, `error`
(absent on the success path), `stdout`, `exit_code`, `cwd_after`,
`truncated`. -/
structure ExecResult where
  ok : Bool
  error : Option String := none
  stdout : String
  exit_code : Option Int
  cwd_after : Option String
  truncated : Bool
deriving Repr, DecidableEq

/-- One iteration of the read loop, as seen from the outside: the value
`time.time()` returns at the top of the iteration, whether
`select.select([proc.stdout], [], [], 0.1)` reports the stream readable, and
the line `proc.stdout.readline()` then returns (`""` models end of stream;
`line` is only consulted when `readable` is true). -/
structure IterEvent where
  now : ℤ
  readable : Bool
  line : String
deriving Repr, DecidableEq

/-- The read loop's mutable locals: `lines`, `exit_code`, `cwd_after`,
`stored_chars`, `stored_lines`, `truncated`. -/
structure LoopState where
  lines : List String
  exit_code : Option Int
  cwd_after : Option String
  stored_chars : Nat
  stored_lines : Nat
  truncated : Bool
deriving Repr, DecidableEq

/-- The locals' initial values at the top of `_read_until_done`. -/
def initLoopState : LoopState := ⟨[], none, none, 0, 0, false⟩

/-- Which exit the read loop took (specification ghost data: the source
returns only the dict). -/
inductive ExitKind where
  | timeoutK
  | eofK
  | doneK
  | crashK
deriving Repr, DecidableEq

/-- The f-string `f"timeout after {timeout_sec:.1f}s"`; the numeric rendering
is abstracted as `toString` of the integral bound (Python renders one decimal
place). -/
def timeoutMsg (t : ℤ) : String := "timeout after " ++ toString t ++ "s"

/-- The dict returned on the timeout path of `_read_until_done`. -/
def timeoutResult (t : ℤ) (s : LoopState) : ExecResult :=
  { ok := false, error := some (timeoutMsg t), stdout := String.join s.lines,
    exit_code := s.exit_code, cwd_after := s.cwd_after, truncated := s.truncated }

/-- The dict returned when `readline` reports end of stream. -/
def eofResult (s : LoopState) : ExecResult :=
  { ok := false, error := some "shell session ended unexpectedly", stdout := String.join s.lines,
    exit_code := s.exit_code, cwd_after := s.cwd_after, truncated := s.truncated }

/-- The dict returned on the success path, after the done marker broke the
loop. -/
def doneResult (s : LoopState) : ExecResult :=
  { ok := true, stdout := String.join s.lines, exit_code := s.exit_code,
    cwd_after := s.cwd_after, truncated := s.truncated }

/-- Outcome of one loop iteration: continue with updated locals, or leave the
loop with a result (or an uncaught exception). -/
inductive StepOut where
  | cont (s : LoopState)
  | exit (r : Except String ExecResult) (s : LoopState) (k : ExitKind)
deriving Repr

/-- Appending one ordinary output line to the captured buffer:
`lines.append(line); stored_lines += 1; stored_chars += len(line)`. -/
def storeLine (s : LoopState) (line : String) : LoopState :=
  { s with lines := s.lines ++ [line],
           stored_lines := s.stored_lines + 1,
           stored_chars := s.stored_chars + line.length }

/-- One iteration of the `while True` body of `_read_until_done`, in source
order: timeout check, readability check, end-of-stream check, cwd-marker
branch (where `line.split(":", 1)[1]` raises `IndexError` when the line holds
no colon), done-marker branch (whose `int(...)` parse is guarded by
`try/except`), and finally ordinary-output storage under the truncation
caps. -/
def readStep (cfg : Config) (start timeoutSec : ℤ) (cwdM doneM : String)
    (s : LoopState) (e : IterEvent) : StepOut :=
  if e.now - start > timeoutSec then
    .exit (.ok (timeoutResult timeoutSec s)) s .timeoutK
  else if e.readable = false then
    .cont s
  else if e.line = "" then
    .exit (.ok (eofResult s)) s .eofK
  else if pyStartsWith e.line cwdM then
    match afterFirstColon e.line with
    | none => .exit (.error "IndexError") s .crashK
    | some rest => .cont { s with cwd_after := some (pyStrip rest) }
  else if pyStartsWith e.line doneM then
    let s' := { s with exit_code := (afterFirstColon e.line).bind (fun r => pyInt (pyStrip r)) }
    .exit (.ok (doneResult s')) s' .doneK
  else if s.truncated = false ∧ s.stored_lines < cfg.maxLines ∧
      s.stored_chars + e.line.length ≤ cfg.maxChars then
    .cont (storeLine s e.line)
  else
    .cont { s with truncated := true }

/-- The `while True` loop of `_read_until_done`, driven by a finite trace of
iterations; `none` means the trace ended while the loop was still running. -/
def readLoop (cfg : Config) (start timeoutSec : ℤ) (cwdM doneM : String) :
    List IterEvent → LoopState → Option (Except String ExecResult × LoopState × ExitKind)
  | [], _ => none
  | e :: es, s =>
    match readStep cfg start timeoutSec cwdM doneM s e with
    | .cont s' => readLoop cfg start timeoutSec cwdM doneM es s'
    | .exit r s' k => some (r, s', k)

/-- `_read_until_done(proc, cwd_marker, done_marker, timeout_sec)`: run the
loop from the initial locals.  Besides the returned dict (or uncaught
exception), the model exposes the locals at loop exit and which exit was
taken, as specification ghost data. -/
def readUntilDone (cfg : Config) (start timeoutSec : ℤ) (cwdM doneM : String)
    (trace : List IterEvent) : Option (Except String ExecResult × LoopState × ExitKind) :=
  readLoop cfg start timeoutSec cwdM doneM trace initLoopState

/-- The ordinary command output offered to the loop before it exits: the lines
of the consumed trace that the loop classifies as ordinary output (readable,
nonempty, not a marker line), cut off at the first exiting iteration.  Which
iteration exits and how each line is classified depends only on the trace,
never on the storage caps, so this is a function of the trace alone. -/
def ordinaryLines (start timeoutSec : ℤ) (cwdM doneM : String) :
    List IterEvent → List String
  | [] => []
  | e :: es =>
    if e.now - start > timeoutSec then []
    else if e.readable = false then ordinaryLines start timeoutSec cwdM doneM es
    else if e.line = "" then []
    else if pyStartsWith e.line cwdM then
      match afterFirstColon e.line with
      | none => []
      | some _ => ordinaryLines start timeoutSec cwdM doneM es
    else if pyStartsWith e.line doneM then []
    else e.line :: ordinaryLines start timeoutSec cwdM doneM es

/-- A `subprocess.Popen` handle as this server observes it: an identity, the
result of `poll()` (`running = true` iff `poll()` is `None`), whether the
`stdin`/`stdout` pipe objects exist, and the text written to its stdin so
far. -/
structure Proc where
  pid : Nat
  running : Bool
  hasStdin : Bool
  hasStdout : Bool
  stdinLog : List String
deriving Repr, DecidableEq

/-- The `ShellSession` dataclass: wraps one process handle. -/
structure ShellSession where
  proc : Proc
deriving Repr, DecidableEq

/-- The module-global mutable state: `_session`. -/
structure ServerState where
  session : Option ShellSession
deriving Repr, DecidableEq

/-- Spawning oracle: the process handle `subprocess.Popen` produces on the
k-th spawn of the run. -/
structure SpawnEnv where
  spawn : Nat → Proc

/-- Shutdown oracle for `_stop_shell`: whether `proc.terminate()` /
`proc.wait(timeout=2)` raises, and whether `proc.kill()` raises. -/
structure StopEnv where
  terminateFails : Bool
  killFails : Bool
deriving Repr, DecidableEq

/-- `_start_shell()` applied to the process handle the environment spawned:
raise `RuntimeError("Failed to start shell with pipes")` when either pipe is
missing, otherwise write the prompt-blanking command to stdin and wrap the
handle in a session. -/
def pyStartShell (p : Proc) : Except String ShellSession :=
  if p.hasStdin = false ∨ p.hasStdout = false then
    .error "Failed to start shell with pipes"
  else
    .ok ⟨{ p with stdinLog := p.stdinLog ++ ["export PS1=''\n"] }⟩

/-- `proc.terminate(); proc.wait(timeout=2)` — raises iff the oracle says
so. -/
def tryTerminate (env : StopEnv) : Except String Unit :=
  if env.terminateFails then .error "terminate failed" else .ok ()

/-- `proc.kill()` — raises iff the oracle says so. -/
def tryKill (env : StopEnv) : Except String Unit :=
  if env.killFails then .error "kill failed" else .ok ()

/-- `_stop_shell()`: early return when no session exists; otherwise try
graceful termination, on any exception try `kill()` and swallow its failure
with a bare `pass`; the `finally` block clears `_session` unconditionally.
The first component is the call's own outcome (always `.ok` — nothing
escapes). -/
def pyStopShell (st : ServerState) (env : StopEnv) : Except String Unit × ServerState :=
  match st.session with
  | none => (.ok (), st)
  | some _ =>
    let swallowed : Except String Unit :=
      match tryTerminate env with
      | .ok () => .ok ()
      | .error _ =>
        match tryKill env with
        | .ok () => .ok ()
        | .error _ => .ok ()
    (swallowed, ⟨none⟩)

/-- `_ensure_shell()`: spawn when `_session is None`; then, if the stored
session's process has exited (`poll()` not `None`), spawn again; return the
resulting process (as its session wrapper) together with the new global state
and the number of spawns consumed. -/
def pyEnsureShell (st : ServerState) (env : SpawnEnv) (k : Nat) :
    Except String (ShellSession × ServerState × Nat) :=
  match st.session with
  | none =>
    match pyStartShell (env.spawn k) with
    | .error e => .error e
    | .ok s1 =>
      if s1.proc.running = false then
        match pyStartShell (env.spawn (k + 1)) with
        | .error e => .error e
        | .ok s2 => .ok (s2, ⟨some s2⟩, k + 2)
      else
        .ok (s1, ⟨some s1⟩, k + 1)
  | some s0 =>
    if s0.proc.running = false then
      match pyStartShell (env.spawn k) with
      | .error e => .error e
      | .ok s1 => .ok (s1, ⟨some s1⟩, k + 1)
    else
      .ok (s0, st, k)

/-- The trailer-augmented payload `_execute` writes: the command with trailing
newlines stripped plus one newline, then the exit-status capture, the
cwd-marker `printf` and the done-marker `printf`. -/
def mkPayload (cmd uid : String) : String :=
  pyRstripNL cmd ++ "\n" ++ "__mcp_ec=$?\n"
    ++ "printf \"" ++ cwdMarker uid ++ ":%s\\n\" \"$PWD\"\n"
    ++ "printf \"" ++ doneMarker uid ++ ":%s\\n\" \"$__mcp_ec\"\n"

/-- `proc.stdin.write(text); proc.stdin.flush()`. -/
def pushStdin (s : ShellSession) (text : String) : ShellSession :=
  ⟨{ s.proc with stdinLog := s.proc.stdinLog ++ [text] }⟩

/-- `_execute(cmd, timeout_sec)` (the body under the lock): ensure a session,
`assert proc.stdin is not None`, write the payload, then run
`_read_until_done`.  `uid` is the `uuid4().hex` of this execution, `start`
and `trace` drive the read loop.  `none` means the model trace ended while
the loop was still running; `.error` is an uncaught Python exception. -/
def pyExecute (cmd : String) (timeoutSec : ℤ) (st : ServerState) (env : SpawnEnv)
    (k : Nat) (uid : String) (cfg : Config) (start : ℤ) (trace : List IterEvent) :
    Option (Except String (ExecResult × ExitKind × ServerState × Nat)) :=
  match pyEnsureShell st env k with
  | .error e => some (.error e)
  | .ok (sess, _st1, k1) =>
    if sess.proc.hasStdin = false then
      some (.error "AssertionError")
    else
      let sess' := pushStdin sess (mkPayload cmd uid)
      match readUntilDone cfg start timeoutSec (cwdMarker uid) (doneMarker uid) trace with
      | none => none
      | some (.error e, _, _) => some (.error e)
      | some (.ok r, _sExit, kind) => some (.ok (r, kind, ⟨some sess'⟩, k1))

/-- The dict returned by the `execute_command` tool.  A field whose value is
`none` models an absent dict key (for `exit_code` and `cwd_after` it also
covers a present key holding Python `None`, which the interface does not
distinguish from absence). -/
structure ToolResult where
  ok : Bool
  error : Option String := none
  stdout : String
  exit_code : Option Int
  cwd_after : Option String
  truncated : Option Bool := none
  cmd : Option String := none
  duration_ms : Option Int := none
deriving Repr, DecidableEq

/-- The dict `execute_command` returns on the validation-error path:
`{"ok": False, "error": "empty command", "stdout": "", "exit_code": None,
"cwd_after": None}` — no `truncated`, `cmd` or `duration_ms` key. -/
def emptyCommandResult : ToolResult :=
  { ok := false, error := some "empty command", stdout := "", exit_code := none,
    cwd_after := none }

/-- `int((time.time() - t0) * 1000)`: with instants modelled as integers the
product is exact, so Python's toward-zero truncation is the identity. -/
def durationMs (t0 t1 : ℤ) : Int := (t1 - t0) * 1000

/-- The result shaping at the end of `execute_command`: attach the echoed
command and the elapsed milliseconds, then substitute the placeholder
`"(ok)\n"` when the command succeeded with exit code zero but printed only
whitespace. -/
def finishResult (r : ExecResult) (c : String) (t0 t1 : ℤ) : ToolResult :=
  let base : ToolResult :=
    { ok := r.ok, error := r.error, stdout := r.stdout, exit_code := r.exit_code,
      cwd_after := r.cwd_after, truncated := some r.truncated,
      cmd := some c, duration_ms := some (durationMs t0 t1) }
  if base.ok = true ∧ base.exit_code = some 0 ∧ pyStrip base.stdout = "" then
    { base with stdout := "(ok)\n" }
  else
    base

/-- The `execute_command` tool: reject a `None`/blank command synchronously,
otherwise run `_execute` and shape its result.  `t0` and `t1` are the wall
clock before and after the `_execute` call. -/
def pyExecuteCommand (cmd : Option String) (timeoutSec : ℤ) (st : ServerState)
    (env : SpawnEnv) (k : Nat) (uid : String) (cfg : Config) (start : ℤ)
    (trace : List IterEvent) (t0 t1 : ℤ) :
    Option (Except String (ToolResult × ServerState × Nat)) :=
  match cmd with
  | none => some (.ok (emptyCommandResult, st, k))
  | some c =>
    if pyStrip c = "" then
      some (.ok (emptyCommandResult, st, k))
    else
      match pyExecute c timeoutSec st env k uid cfg start trace with
      | none => none
      | some (.error e) => some (.error e)
      | some (.ok (r, _kind, st', k')) => some (.ok (finishResult r c t0 t1, st', k'))

/-- The dict returned by the `terminate_terminal` tool. -/
structure TermResult where
  ok : Bool
  message : String
deriving Repr, DecidableEq

/-- The `terminate_terminal` tool: `_stop_shell()` under the lock, then the
fixed success dict. -/
def pyTerminateTerminal (st : ServerState) (env : StopEnv) : TermResult × ServerState :=
  let r := pyStopShell st env
  ({ ok := true, message := "terminal session terminated" }, r.2)

/-- The dict returned by the `initiate_terminal` tool. -/
structure InitResult where
  ok : Bool
  message : String
  cwd : Option String
deriving Repr, DecidableEq

/-- The `initiate_terminal` tool: `_stop_shell()` then `_ensure_shell()` under
the lock, then `_execute("pwd", timeout_sec=8.0)`, then the fixed success
dict whose `cwd` is the stripped captured stdout when nonempty, else the
diagnostic result's `cwd_after`.  The second component of the `.ok` payload
is the diagnostic execution's own dict (specification ghost data). -/
def pyInitiateTerminal (st : ServerState) (stopEnv : StopEnv) (env : SpawnEnv)
    (k : Nat) (uid : String) (cfg : Config) (start : ℤ) (trace : List IterEvent) :
    Option (Except String (InitResult × ExecResult × ServerState × Nat)) :=
  match pyEnsureShell (pyStopShell st stopEnv).2 env k with
  | .error e => some (.error e)
  | .ok (_sess, st2, k2) =>
    match pyExecute "pwd" 8 st2 env k2 uid cfg start trace with
    | none => none
    | some (.error e) => some (.error e)
    | some (.ok (r, _kind, st3, k3)) =>
      some (.ok ({ ok := true, message := "terminal session initiated",
                   cwd := if pyStrip r.stdout = "" then r.cwd_after
                          else some (pyStrip r.stdout) },
                 r, st3, k3))

/-- Numeric bookkeeping invariant of the read loop's locals: the counters
track the stored lines, and both caps hold. -/
def SizeInv (cfg : Config) (s : LoopState) : Prop :=
  s.stored_chars = (s.lines.map String.length).sum ∧
  s.stored_lines = s.lines.length ∧
  s.stored_chars ≤ cfg.maxChars ∧
  s.stored_lines ≤ cfg.maxLines

/-- Invariant of every state the loop can be in before exiting: sizes are
consistent and `exit_code` has not been assigned yet. -/
def LoopInv (cfg : Config) (s : LoopState) : Prop :=
  SizeInv cfg s ∧ s.exit_code = none

/-- Which dict (or uncaught exception) each exit kind carries. -/
def ExitFacts (timeoutSec : ℤ) (res : Except String ExecResult) (sExit : LoopState)
    (kind : ExitKind) : Prop :=
  match kind with
  | .timeoutK => res = .ok (timeoutResult timeoutSec sExit)
  | .eofK => res = .ok (eofResult sExit)
  | .doneK => res = .ok (doneResult sExit)
  | .crashK => res = .error "IndexError"

/-! Helper lemmas. -/

theorem length_foldl_append (l : List String) :
    ∀ a : String, (l.foldl (fun r s => r ++ s) a).length = a.length + (l.map String.length).sum := by
  induction l with
  | nil => intro a; simp
  | cons x xs ih =>
    intro a
    simp only [List.foldl_cons, ih, String.length_append, List.map_cons, List.sum_cons]
    omega

theorem length_join (l : List String) :
    (String.join l).length = (l.map String.length).sum := by
  simpa [String.join] using length_foldl_append l ""

theorem readLoop_cons_timeout (cfg : Config) (start timeoutSec : ℤ) (cwdM doneM : String)
    (s : LoopState) (e : IterEvent) (es : List IterEvent)
    (h1 : e.now - start > timeoutSec) :
    readLoop cfg start timeoutSec cwdM doneM (e :: es) s =
      some (.ok (timeoutResult timeoutSec s), s, .timeoutK) := by
  simp [readLoop, readStep, h1]

theorem readLoop_cons_notReadable (cfg : Config) (start timeoutSec : ℤ) (cwdM doneM : String)
    (s : LoopState) (e : IterEvent) (es : List IterEvent)
    (h1 : ¬ e.now - start > timeoutSec) (h2 : e.readable = false) :
    readLoop cfg start timeoutSec cwdM doneM (e :: es) s =
      readLoop cfg start timeoutSec cwdM doneM es s := by
  simp [readLoop, readStep, h1, h2]

theorem readLoop_cons_eof (cfg : Config) (start timeoutSec : ℤ) (cwdM doneM : String)
    (s : LoopState) (e : IterEvent) (es : List IterEvent)
    (h1 : ¬ e.now - start > timeoutSec) (h2 : e.readable = true) (h3 : e.line = "") :
    readLoop cfg start timeoutSec cwdM doneM (e :: es) s =
      some (.ok (eofResult s), s, .eofK) := by
  simp [readLoop, readStep, h1, h2, h3]

theorem readLoop_cons_cwdCrash (cfg : Config) (start timeoutSec : ℤ) (cwdM doneM : String)
    (s : LoopState) (e : IterEvent) (es : List IterEvent)
    (h1 : ¬ e.now - start > timeoutSec) (h2 : e.readable = true) (h3 : e.line ≠ "")
    (h4 : pyStartsWith e.line cwdM = true) (hac : afterFirstColon e.line = none) :
    readLoop cfg start timeoutSec cwdM doneM (e :: es) s =
      some (.error "IndexError", s, .crashK) := by
  simp [readLoop, readStep, h1, h2, h3, h4, hac]

theorem readLoop_cons_cwd (cfg : Config) (start timeoutSec : ℤ) (cwdM doneM : String)
    (s : LoopState) (e : IterEvent) (es : List IterEvent) (rest : String)
    (h1 : ¬ e.now - start > timeoutSec) (h2 : e.readable = true) (h3 : e.line ≠ "")
    (h4 : pyStartsWith e.line cwdM = true) (hac : afterFirstColon e.line = some rest) :
    readLoop cfg start timeoutSec cwdM doneM (e :: es) s =
      readLoop cfg start timeoutSec cwdM doneM es { s with cwd_after := some (pyStrip rest) } := by
  simp [readLoop, readStep, h1, h2, h3, h4, hac]

theorem readLoop_cons_done (cfg : Config) (start timeoutSec : ℤ) (cwdM doneM : String)
    (s : LoopState) (e : IterEvent) (es : List IterEvent)
    (h1 : ¬ e.now - start > timeoutSec) (h2 : e.readable = true) (h3 : e.line ≠ "")
    (h4 : pyStartsWith e.line cwdM = false) (h5 : pyStartsWith e.line doneM = true) :
    readLoop cfg start timeoutSec cwdM doneM (e :: es) s =
      some (.ok (doneResult { s with
          exit_code := (afterFirstColon e.line).bind (fun r => pyInt (pyStrip r)) }),
        { s with exit_code := (afterFirstColon e.line).bind (fun r => pyInt (pyStrip r)) },
        .doneK) := by
  simp [readLoop, readStep, h1, h2, h3, h4, h5]

theorem readLoop_cons_store (cfg : Config) (start timeoutSec : ℤ) (cwdM doneM : String)
    (s : LoopState) (e : IterEvent) (es : List IterEvent)
    (h1 : ¬ e.now - start > timeoutSec) (h2 : e.readable = true) (h3 : e.line ≠ "")
    (h4 : pyStartsWith e.line cwdM = false) (h5 : pyStartsWith e.line doneM = false)
    (h6 : s.truncated = false ∧ s.stored_lines < cfg.maxLines ∧
      s.stored_chars + e.line.length ≤ cfg.maxChars) :
    readLoop cfg start timeoutSec cwdM doneM (e :: es) s =
      readLoop cfg start timeoutSec cwdM doneM es (storeLine s e.line) := by
  simp [readLoop, readStep, h1, h2, h3, h4, h5, h6.1, h6.2.1, h6.2.2]

theorem readLoop_cons_drop (cfg : Config) (start timeoutSec : ℤ) (cwdM doneM : String)
    (s : LoopState) (e : IterEvent) (es : List IterEvent)
    (h1 : ¬ e.now - start > timeoutSec) (h2 : e.readable = true) (h3 : e.line ≠ "")
    (h4 : pyStartsWith e.line cwdM = false) (h5 : pyStartsWith e.line doneM = false)
    (h6 : ¬ (s.truncated = false ∧ s.stored_lines < cfg.maxLines ∧
      s.stored_chars + e.line.length ≤ cfg.maxChars)) :
    readLoop cfg start timeoutSec cwdM doneM (e :: es) s =
      readLoop cfg start timeoutSec cwdM doneM es { s with truncated := true } := by
  simp [readLoop, readStep, h1, h2, h3, h4, h5, h6]

theorem readLoop_spec (cfg : Config) (start timeoutSec : ℤ) (cwdM doneM : String) :
    ∀ (trace : List IterEvent) (s : LoopState), LoopInv cfg s →
      ∀ res sExit kind,
        readLoop cfg start timeoutSec cwdM doneM trace s = some (res, sExit, kind) →
        SizeInv cfg sExit ∧
        (kind ≠ ExitKind.doneK → sExit.exit_code = none) ∧
        ExitFacts timeoutSec res sExit kind ∧
        (∃ extra, sExit.lines = s.lines ++ extra ∧
          extra <+: ordinaryLines start timeoutSec cwdM doneM trace ∧
          (sExit.truncated = false →
            s.truncated = false ∧ extra = ordinaryLines start timeoutSec cwdM doneM trace)) ∧
        (s.truncated = true → sExit.lines = s.lines ∧ sExit.truncated = true) := by
  intro trace
  induction trace with
  | nil =>
    intro s hInv res sExit kind h
    simp [readLoop] at h
  | cons e es ih =>
    intro s hInv res sExit kind h
    by_cases h1 : e.now - start > timeoutSec
    · rw [readLoop_cons_timeout cfg start timeoutSec cwdM doneM s e es h1] at h
      simp only [Option.some.injEq, Prod.mk.injEq] at h
      obtain ⟨rfl, rfl, rfl⟩ := h
      refine ⟨hInv.1, fun _ => hInv.2, by simp [ExitFacts], ⟨[], by simp, List.nil_prefix, ?_⟩,
        fun ht => ⟨rfl, ht⟩⟩
      intro htr
      exact ⟨htr, by simp [ordinaryLines, h1]⟩
    · by_cases h2 : e.readable = false
      · rw [readLoop_cons_notReadable cfg start timeoutSec cwdM doneM s e es h1 h2] at h
        have hord : ordinaryLines start timeoutSec cwdM doneM (e :: es) =
            ordinaryLines start timeoutSec cwdM doneM es := by
          simp [ordinaryLines, h1, h2]
        rw [hord]
        exact ih s hInv res sExit kind h
      · have h2' : e.readable = true := by
          cases hb : e.readable
          · exact absurd hb h2
          · rfl
        by_cases h3 : e.line = ""
        · rw [readLoop_cons_eof cfg start timeoutSec cwdM doneM s e es h1 h2' h3] at h
          simp only [Option.some.injEq, Prod.mk.injEq] at h
          obtain ⟨rfl, rfl, rfl⟩ := h
          refine ⟨hInv.1, fun _ => hInv.2, by simp [ExitFacts], ⟨[], by simp, List.nil_prefix, ?_⟩,
            fun ht => ⟨rfl, ht⟩⟩
          intro htr
          exact ⟨htr, by simp [ordinaryLines, h1, h2', h3]⟩
        · by_cases h4 : pyStartsWith e.line cwdM = true
          · cases hac : afterFirstColon e.line with
            | none =>
              rw [readLoop_cons_cwdCrash cfg start timeoutSec cwdM doneM s e es h1 h2' h3 h4 hac] at h
              simp only [Option.some.injEq, Prod.mk.injEq] at h
              obtain ⟨rfl, rfl, rfl⟩ := h
              refine ⟨hInv.1, fun _ => hInv.2, by simp [ExitFacts],
                ⟨[], by simp, List.nil_prefix, ?_⟩, fun ht => ⟨rfl, ht⟩⟩
              intro htr
              exact ⟨htr, by simp [ordinaryLines, h1, h2', h3, h4, hac]⟩
            | some rest =>
              rw [readLoop_cons_cwd cfg start timeoutSec cwdM doneM s e es rest h1 h2' h3 h4 hac] at h
              have hInv' : LoopInv cfg { s with cwd_after := some (pyStrip rest) } := by
                exact ⟨hInv.1, hInv.2⟩
              have hord : ordinaryLines start timeoutSec cwdM doneM (e :: es) =
                  ordinaryLines start timeoutSec cwdM doneM es := by
                simp [ordinaryLines, h1, h2', h3, h4, hac]
              rw [hord]
              exact ih _ hInv' res sExit kind h
          · have h4' : pyStartsWith e.line cwdM = false := by
              cases hb : pyStartsWith e.line cwdM
              · rfl
              · exact absurd hb h4
            by_cases h5 : pyStartsWith e.line doneM = true
            · rw [readLoop_cons_done cfg start timeoutSec cwdM doneM s e es h1 h2' h3 h4' h5] at h
              simp only [Option.some.injEq, Prod.mk.injEq] at h
              obtain ⟨rfl, rfl, rfl⟩ := h
              refine ⟨hInv.1, fun hk => absurd rfl hk, by simp [ExitFacts],
                ⟨[], by simp, List.nil_prefix, ?_⟩, fun ht => ⟨rfl, ht⟩⟩
              intro htr
              refine ⟨htr, ?_⟩
              simp [ordinaryLines, h1, h2', h3, h4', h5]
            · have h5' : pyStartsWith e.line doneM = false := by
                cases hb : pyStartsWith e.line doneM
                · rfl
                · exact absurd hb h5
              have hord : ordinaryLines start timeoutSec cwdM doneM (e :: es) =
                  e.line :: ordinaryLines start timeoutSec cwdM doneM es := by
                simp [ordinaryLines, h1, h2', h3, h4', h5']
              by_cases h6 : s.truncated = false ∧ s.stored_lines < cfg.maxLines ∧
                  s.stored_chars + e.line.length ≤ cfg.maxChars
              · rw [readLoop_cons_store cfg start timeoutSec cwdM doneM s e es h1 h2' h3 h4' h5' h6] at h
                have hInv' : LoopInv cfg (storeLine s e.line) := by
                  obtain ⟨⟨hc, hl, hcc, hlc⟩, hec⟩ := hInv
                  refine ⟨⟨?_, ?_, ?_, ?_⟩, hec⟩
                  · simp [storeLine, hc, List.map_append, List.sum_append]
                  · simp [storeLine, hl]
                  · simpa [storeLine] using h6.2.2
                  · simpa [storeLine] using h6.2.1
                have hpack := ih _ hInv' res sExit kind h
                obtain ⟨hsz, hec, hef, ⟨extra, hlines, hpre, himp⟩, hmono⟩ := hpack
                refine ⟨hsz, hec, hef, ⟨e.line :: extra, ?_, ?_, ?_⟩, ?_⟩
                · rw [hlines]
                  simp [storeLine]
                · rw [hord]
                  exact List.cons_prefix_cons.mpr ⟨rfl, hpre⟩
                · intro htr
                  obtain ⟨htr', hex⟩ := himp htr
                  have hst : s.truncated = false := by
                    simpa [storeLine] using htr'
                  refine ⟨hst, ?_⟩
                  rw [hord, hex]
                · intro ht
                  rw [h6.1] at ht
                  simp at ht
              · rw [readLoop_cons_drop cfg start timeoutSec cwdM doneM s e es h1 h2' h3 h4' h5' h6] at h
                have hInv' : LoopInv cfg { s with truncated := true } := by
                  obtain ⟨⟨hc, hl, hcc, hlc⟩, hec⟩ := hInv
                  exact ⟨⟨hc, hl, hcc, hlc⟩, hec⟩
                have hpack := ih _ hInv' res sExit kind h
                obtain ⟨hsz, hec, hef, _, hmono⟩ := hpack
                have hE : sExit.lines = s.lines ∧ sExit.truncated = true := by
                  simpa using hmono rfl
                refine ⟨hsz, hec, hef, ⟨[], by simp [hE.1], List.nil_prefix, ?_⟩, fun _ => hE⟩
                intro htr
                rw [hE.2] at htr
                simp at htr

theorem initLoopInv (cfg : Config) : LoopInv cfg initLoopState := by
  simp [LoopInv, SizeInv, initLoopState]

theorem okExit_fields (timeoutSec : ℤ) (r : ExecResult) (sExit : LoopState) (kind : ExitKind)
    (hef : ExitFacts timeoutSec (.ok r) sExit kind) :
    r.stdout = String.join sExit.lines ∧ r.truncated = sExit.truncated ∧
    r.exit_code = sExit.exit_code ∧ r.cwd_after = sExit.cwd_after := by
  cases kind <;> simp [ExitFacts] at hef <;> subst hef <;>
    simp [timeoutResult, eofResult, doneResult]

theorem ensure_stores (st : ServerState) (env : SpawnEnv) (k : Nat)
    (sess : ShellSession) (st1 : ServerState) (k1 : Nat)
    (h : pyEnsureShell st env k = .ok (sess, st1, k1)) : st1 = ⟨some sess⟩ := by
  obtain ⟨sessOpt⟩ := st
  cases sessOpt with
  | none =>
    simp only [pyEnsureShell] at h
    cases h1 : pyStartShell (env.spawn k) with
    | error e => simp [h1] at h
    | ok s1 =>
      simp only [h1] at h
      by_cases hr : s1.proc.running = false
      · simp only [if_pos hr] at h
        cases h2 : pyStartShell (env.spawn (k + 1)) with
        | error e => simp [h2] at h
        | ok s2 =>
          simp only [h2, Except.ok.injEq, Prod.mk.injEq] at h
          obtain ⟨rfl, rfl, rfl⟩ := h
          rfl
      · simp only [if_neg hr, Except.ok.injEq, Prod.mk.injEq] at h
        obtain ⟨rfl, rfl, rfl⟩ := h
        rfl
  | some s0 =>
    simp only [pyEnsureShell] at h
    by_cases hr : s0.proc.running = false
    · simp only [if_pos hr] at h
      cases h1 : pyStartShell (env.spawn k) with
      | error e => simp [h1] at h
      | ok s1 =>
        simp only [h1, Except.ok.injEq, Prod.mk.injEq] at h
        obtain ⟨rfl, rfl, rfl⟩ := h
        rfl
    · simp only [if_neg hr, Except.ok.injEq, Prod.mk.injEq] at h
      obtain ⟨rfl, rfl, rfl⟩ := h
      rfl

theorem pyExecute_ok_shape (cmd : String) (timeoutSec : ℤ) (st : ServerState) (env : SpawnEnv)
    (k : Nat) (uid : String) (cfg : Config) (start : ℤ) (trace : List IterEvent)
    (res : ExecResult) (kind : ExitKind) (st' : ServerState) (k' : Nat)
    (h : pyExecute cmd timeoutSec st env k uid cfg start trace =
      some (.ok (res, kind, st', k'))) :
    ∃ sess, pyEnsureShell st env k = .ok (sess, ⟨some sess⟩, k') ∧
      sess.proc.hasStdin = true ∧
      st' = ⟨some (pushStdin sess (mkPayload cmd uid))⟩ ∧
      ∃ sExit, readUntilDone cfg start timeoutSec (cwdMarker uid) (doneMarker uid) trace =
        some (.ok res, sExit, kind) := by
  unfold pyExecute at h
  cases hens : pyEnsureShell st env k with
  | error e => simp [hens] at h
  | ok trip =>
    obtain ⟨sess, st1, k1⟩ := trip
    have hst1 : st1 = ⟨some sess⟩ := ensure_stores st env k sess st1 k1 hens
    simp only [hens] at h
    by_cases hstdin : sess.proc.hasStdin = false
    · simp [hstdin] at h
    · have hstdin' : sess.proc.hasStdin = true := by
        cases hb : sess.proc.hasStdin
        · exact absurd hb hstdin
        · rfl
      simp only [if_neg hstdin] at h
      cases hread : readUntilDone cfg start timeoutSec (cwdMarker uid) (doneMarker uid) trace with
      | none => simp [hread] at h
      | some trip2 =>
        obtain ⟨rr, sE, kd⟩ := trip2
        cases rr with
        | error e => simp [hread] at h
        | ok r =>
          simp only [hread, Option.some.injEq, Except.ok.injEq, Prod.mk.injEq] at h
          obtain ⟨rfl, rfl, rfl, rfl⟩ := h
          exact ⟨sess, by rw [hst1], hstdin', rfl, sE, rfl⟩

theorem stopShell_clears (st : ServerState) (env : StopEnv) :
    (pyStopShell st env).2 = ⟨none⟩ := by
  obtain ⟨sessOpt⟩ := st
  cases sessOpt with
  | none => rfl
  | some s0 => rfl

theorem finishResult_fields (rx : ExecResult) (c : String) (t0 t1 : ℤ) :
    (finishResult rx c t0 t1).ok = rx.ok ∧
    (finishResult rx c t0 t1).error = rx.error ∧
    (finishResult rx c t0 t1).exit_code = rx.exit_code ∧
    (finishResult rx c t0 t1).cwd_after = rx.cwd_after ∧
    (finishResult rx c t0 t1).truncated = some rx.truncated ∧
    (finishResult rx c t0 t1).cmd = some c ∧
    (finishResult rx c t0 t1).duration_ms = some (durationMs t0 t1) := by
  unfold finishResult
  simp only []
  split <;> simp

theorem pyExecuteCommand_run (c : String) (timeoutSec : ℤ) (st : ServerState)
    (env : SpawnEnv) (k : Nat) (uid : String) (cfg : Config) (start : ℤ)
    (trace : List IterEvent) (t0 t1 : ℤ) (sess : ShellSession) (k1 : Nat)
    (r : ExecResult) (sE : LoopState) (kd : ExitKind)
    (hc : ¬ pyStrip c = "")
    (hens : pyEnsureShell st env k = .ok (sess, ⟨some sess⟩, k1))
    (hstdin : sess.proc.hasStdin = true)
    (hread : readUntilDone cfg start timeoutSec (cwdMarker uid) (doneMarker uid) trace =
      some (.ok r, sE, kd)) :
    pyExecuteCommand (some c) timeoutSec st env k uid cfg start trace t0 t1 =
      some (.ok (finishResult r c t0 t1, ⟨some (pushStdin sess (mkPayload c uid))⟩, k1)) := by
  simp [pyExecuteCommand, pyExecute, hens, hstdin, hread, hc]

/-! Claim theorems. -/

/-- Claim C1: whenever the read loop returns a dict (in particular when it
completes by finding the done marker, `r.ok = true`), the captured stdout is
the join of the stored lines, whose total length is at most the character cap
and whose count is at most the line cap; the stored lines are a prefix of the
ordinary output offered before the exit (so once a line is dropped, that line
and every later ordinary line is dropped); and if the ordinary output exceeded
either cap then the result is marked `truncated = true`. -/
theorem claim1_output_caps (cfg : Config) (start timeoutSec : ℤ) (cwdM doneM : String)
    (trace : List IterEvent) (r : ExecResult) (sExit : LoopState) (kind : ExitKind)
    (h : readUntilDone cfg start timeoutSec cwdM doneM trace = some (.ok r, sExit, kind)) :
    r.stdout = String.join sExit.lines ∧
    r.stdout.length ≤ cfg.maxChars ∧
    sExit.lines.length ≤ cfg.maxLines ∧
    sExit.lines <+: ordinaryLines start timeoutSec cwdM doneM trace ∧
    (r.ok = true →
      (((ordinaryLines start timeoutSec cwdM doneM trace).map String.length).sum > cfg.maxChars ∨
        (ordinaryLines start timeoutSec cwdM doneM trace).length > cfg.maxLines) →
      r.truncated = true) := by
  have hpack := readLoop_spec cfg start timeoutSec cwdM doneM trace initLoopState
    (initLoopInv cfg) (.ok r) sExit kind h
  obtain ⟨⟨hc, hl, hcc, hlc⟩, _hec, hef, ⟨extra, hlines, hpre, himp⟩, _⟩ := hpack
  obtain ⟨hstdout, htrunc, _, _⟩ := okExit_fields timeoutSec r sExit kind hef
  have hlines' : sExit.lines = extra := by simpa [initLoopState] using hlines
  refine ⟨hstdout, ?_, ?_, ?_, ?_⟩
  · rw [hstdout, length_join, ← hc]
    exact hcc
  · rw [← hl]
    exact hlc
  · rw [hlines']
    exact hpre
  · intro _hok hbig
    by_cases htr : r.truncated = true
    · exact htr
    · have htr' : r.truncated = false := by
        cases hb : r.truncated
        · rfl
        · exact absurd hb htr
      have hsx : sExit.truncated = false := by rw [← htrunc]; exact htr'
      obtain ⟨_, hall⟩ := himp hsx
      have hfull : sExit.lines = ordinaryLines start timeoutSec cwdM doneM trace := by
        rw [hlines', hall]
      rcases hbig with hb1 | hb2
      · rw [← hfull, ← hc] at hb1
        omega
      · rw [← hfull, ← hl] at hb2
        omega

theorem claim1_output_caps_witness :
    (readUntilDone ⟨3, 800⟩ 0 20 (cwdMarker "u") (doneMarker "u")
        [⟨0, true, "abcd\n"⟩, ⟨1, true, "__MCP_DONE_u__:0\n"⟩] =
      some (.ok ⟨true, none, "", some 0, none, true⟩,
        ⟨[], some 0, none, 0, 0, true⟩, .doneK)) ∧
    ("" = String.join [] ∧
      ("" : String).length ≤ 3 ∧
      ([] : List String).length ≤ 800 ∧
      ([] : List String) <+: ordinaryLines 0 20 (cwdMarker "u") (doneMarker "u")
        [⟨0, true, "abcd\n"⟩, ⟨1, true, "__MCP_DONE_u__:0\n"⟩] ∧
      (true = true →
        (((ordinaryLines 0 20 (cwdMarker "u") (doneMarker "u")
            [⟨0, true, "abcd\n"⟩, ⟨1, true, "__MCP_DONE_u__:0\n"⟩]).map String.length).sum > 3 ∨
          (ordinaryLines 0 20 (cwdMarker "u") (doneMarker "u")
            [⟨0, true, "abcd\n"⟩, ⟨1, true, "__MCP_DONE_u__:0\n"⟩]).length > 800) →
        true = true)) :=
  ⟨rfl, claim1_output_caps ⟨3, 800⟩ 0 20 (cwdMarker "u") (doneMarker "u")
    [⟨0, true, "abcd\n"⟩, ⟨1, true, "__MCP_DONE_u__:0\n"⟩]
    ⟨true, none, "", some 0, none, true⟩ ⟨[], some 0, none, 0, 0, true⟩ .doneK rfl⟩

/-- Claim C2: when `_execute`'s read loop exits by timeout, the call returns a
dict with `ok=false`, an error string naming the timeout bound, the output
captured so far (the dict is exactly `timeoutResult` of the locals at exit)
and a null exit code; the stored session is exactly the one `_ensure_shell`
returned with only the payload appended to its stdin — the session process is
neither killed nor replaced (same handle, same liveness, no extra spawn). -/
theorem claim2_timeout (cmd : String) (timeoutSec : ℤ) (st : ServerState) (env : SpawnEnv)
    (k : Nat) (uid : String) (cfg : Config) (start : ℤ) (trace : List IterEvent)
    (res : ExecResult) (st' : ServerState) (k' : Nat)
    (h : pyExecute cmd timeoutSec st env k uid cfg start trace =
      some (.ok (res, .timeoutK, st', k'))) :
    res.ok = false ∧
    res.error = some (timeoutMsg timeoutSec) ∧
    res.exit_code = none ∧
    (∃ sExit, res = timeoutResult timeoutSec sExit ∧ res.stdout = String.join sExit.lines) ∧
    ∃ sess, pyEnsureShell st env k = .ok (sess, ⟨some sess⟩, k') ∧
      st' = ⟨some (pushStdin sess (mkPayload cmd uid))⟩ ∧
      (pushStdin sess (mkPayload cmd uid)).proc.pid = sess.proc.pid ∧
      (pushStdin sess (mkPayload cmd uid)).proc.running = sess.proc.running := by
  obtain ⟨sess, hens, _hstdin, hst', sExit, hread⟩ :=
    pyExecute_ok_shape cmd timeoutSec st env k uid cfg start trace res .timeoutK st' k' h
  have hpack := readLoop_spec cfg start timeoutSec (cwdMarker uid) (doneMarker uid) trace
    initLoopState (initLoopInv cfg) (.ok res) sExit .timeoutK hread
  obtain ⟨_, hec, hef, _, _⟩ := hpack
  have hres : res = timeoutResult timeoutSec sExit := by
    simpa [ExitFacts] using hef
  have hecn : sExit.exit_code = none := hec (by decide)
  refine ⟨?_, ?_, ?_, ⟨sExit, hres, ?_⟩, sess, hens, hst', by simp [pushStdin],
    by simp [pushStdin]⟩
  · rw [hres]; rfl
  · rw [hres]; rfl
  · rw [hres]; simp [timeoutResult, hecn]
  · rw [hres]; rfl

theorem claim2_timeout_witness :
    ((⟨false, some (timeoutMsg 20), "", none, none, false⟩ : ExecResult).ok = false) ∧
    ((⟨false, some (timeoutMsg 20), "", none, none, false⟩ : ExecResult).error =
      some (timeoutMsg 20)) ∧
    ((⟨false, some (timeoutMsg 20), "", none, none, false⟩ : ExecResult).exit_code = none) :=
  ⟨(claim2_timeout "sleep 100" 20 ⟨none⟩ ⟨fun _ => ⟨1, true, true, true, []⟩⟩ 0 "u"
      defaultConfig 0 [⟨25, true, "x\n"⟩]
      ⟨false, some (timeoutMsg 20), "", none, none, false⟩
      ⟨some ⟨⟨1, true, true, true, ["export PS1=''\n", mkPayload "sleep 100" "u"]⟩⟩⟩ 1 rfl).1,
   (claim2_timeout "sleep 100" 20 ⟨none⟩ ⟨fun _ => ⟨1, true, true, true, []⟩⟩ 0 "u"
      defaultConfig 0 [⟨25, true, "x\n"⟩]
      ⟨false, some (timeoutMsg 20), "", none, none, false⟩
      ⟨some ⟨⟨1, true, true, true, ["export PS1=''\n", mkPayload "sleep 100" "u"]⟩⟩⟩ 1 rfl).2.1,
   (claim2_timeout "sleep 100" 20 ⟨none⟩ ⟨fun _ => ⟨1, true, true, true, []⟩⟩ 0 "u"
      defaultConfig 0 [⟨25, true, "x\n"⟩]
      ⟨false, some (timeoutMsg 20), "", none, none, false⟩
      ⟨some ⟨⟨1, true, true, true, ["export PS1=''\n", mkPayload "sleep 100" "u"]⟩⟩⟩ 1 rfl).2.2.1⟩

/-- Claim C6: an iteration on which the stream reports end of stream makes
the loop return immediately (first conjunct, at step level: the remaining
trace is never consulted), and every loop run that exits this way returns the
dict with `ok=false`, the "ended unexpectedly" error, the output captured so
far and a null exit code (second conjunct). -/
theorem claim6_eof (cfg : Config) (start timeoutSec : ℤ) (cwdM doneM : String) :
    (∀ (s : LoopState) (e : IterEvent) (es : List IterEvent),
      ¬ e.now - start > timeoutSec → e.readable = true → e.line = "" →
      readLoop cfg start timeoutSec cwdM doneM (e :: es) s =
        some (.ok (eofResult s), s, .eofK)) ∧
    (∀ (trace : List IterEvent) (res : Except String ExecResult) (sExit : LoopState),
      readUntilDone cfg start timeoutSec cwdM doneM trace = some (res, sExit, .eofK) →
      res = .ok (eofResult sExit) ∧
      (eofResult sExit).ok = false ∧
      (eofResult sExit).error = some "shell session ended unexpectedly" ∧
      (eofResult sExit).stdout = String.join sExit.lines ∧
      (eofResult sExit).exit_code = none) := by
  constructor
  · intro s e es h1 h2 h3
    exact readLoop_cons_eof cfg start timeoutSec cwdM doneM s e es h1 h2 h3
  · intro trace res sExit h
    have hpack := readLoop_spec cfg start timeoutSec cwdM doneM trace
      initLoopState (initLoopInv cfg) res sExit .eofK h
    obtain ⟨_, hec, hef, _, _⟩ := hpack
    have hres : res = .ok (eofResult sExit) := by
      simpa [ExitFacts] using hef
    have hecn : sExit.exit_code = none := hec (by decide)
    exact ⟨hres, rfl, rfl, rfl, by simp [eofResult, hecn]⟩

theorem claim6_eof_witness :
    (readLoop defaultConfig 0 20 (cwdMarker "u") (doneMarker "u")
        [⟨3, true, ""⟩, ⟨4, true, "never read\n"⟩] initLoopState =
      some (.ok (eofResult initLoopState), initLoopState, .eofK)) ∧
    ((eofResult initLoopState).ok = false) :=
  ⟨(claim6_eof defaultConfig 0 20 (cwdMarker "u") (doneMarker "u")).1 initLoopState
      ⟨3, true, ""⟩ [⟨4, true, "never read\n"⟩] (by decide) rfl rfl,
   ((claim6_eof defaultConfig 0 20 (cwdMarker "u") (doneMarker "u")).2
      [⟨3, true, ""⟩] (.ok (eofResult initLoopState)) initLoopState rfl).2.1⟩

/-- Claim C5 fails as stated: a line that begins with the working-directory
marker token but holds no colon is not "parsed into the stored working
directory" with reading continuing — `line.split(":", 1)[1]` raises an
uncaught `IndexError` and the loop aborts (the locals still hold
`cwd_after = none`). -/
theorem claim5_counterexample :
    pyStartsWith "__MCP_CWD_u__\n" (cwdMarker "u") = true ∧
    readUntilDone defaultConfig 0 20 (cwdMarker "u") (doneMarker "u")
        [⟨0, true, "__MCP_CWD_u__\n"⟩, ⟨1, true, "__MCP_DONE_u__:0\n"⟩] =
      some (.error "IndexError", initLoopState, .crashK) ∧
    initLoopState.cwd_after = none :=
  ⟨rfl, rfl, rfl⟩

/-- Claim C5, amended: every line that begins with the working-directory
marker token *and contains a colon* is parsed into the stored working
directory and never appended to captured output (the continuation state keeps
`lines` untouched), and reading continues; a marker line with no colon raises
an uncaught `IndexError` instead.  Every line that begins with the done
marker token (and not with the cwd marker, which is tested first) stops
reading, with the text after the first colon parsed as the integer exit code
and any parse failure — including a missing colon — yielding a null exit
code. -/
theorem claim5_amended (cfg : Config) (start timeoutSec : ℤ) (cwdM doneM : String)
    (s : LoopState) (e : IterEvent) (es : List IterEvent)
    (h1 : ¬ e.now - start > timeoutSec) (h2 : e.readable = true) (h3 : e.line ≠ "") :
    (pyStartsWith e.line cwdM = true →
      ∀ rest, afterFirstColon e.line = some rest →
        readLoop cfg start timeoutSec cwdM doneM (e :: es) s =
          readLoop cfg start timeoutSec cwdM doneM es
            { s with cwd_after := some (pyStrip rest) }) ∧
    (pyStartsWith e.line cwdM = true → afterFirstColon e.line = none →
      readLoop cfg start timeoutSec cwdM doneM (e :: es) s =
        some (.error "IndexError", s, .crashK)) ∧
    (pyStartsWith e.line cwdM = false → pyStartsWith e.line doneM = true →
      readLoop cfg start timeoutSec cwdM doneM (e :: es) s =
        some (.ok (doneResult { s with
            exit_code := (afterFirstColon e.line).bind (fun r => pyInt (pyStrip r)) }),
          { s with exit_code := (afterFirstColon e.line).bind (fun r => pyInt (pyStrip r)) },
          .doneK)) :=
  ⟨fun h4 rest hac => readLoop_cons_cwd cfg start timeoutSec cwdM doneM s e es rest h1 h2 h3 h4 hac,
   fun h4 hac => readLoop_cons_cwdCrash cfg start timeoutSec cwdM doneM s e es h1 h2 h3 h4 hac,
   fun h4 h5 => readLoop_cons_done cfg start timeoutSec cwdM doneM s e es h1 h2 h3 h4 h5⟩

theorem claim5_amended_witness :
    (readLoop defaultConfig 0 20 (cwdMarker "u") (doneMarker "u")
        [⟨0, true, "__MCP_CWD_u__:/tmp\n"⟩] initLoopState =
      readLoop defaultConfig 0 20 (cwdMarker "u") (doneMarker "u") []
        ⟨[], none, some "/tmp", 0, 0, false⟩) ∧
    (readLoop defaultConfig 0 20 (cwdMarker "u") (doneMarker "u")
        [⟨0, true, "__MCP_DONE_u__:zzz\n"⟩] initLoopState =
      some (.ok ⟨true, none, "", none, none, false⟩, initLoopState, .doneK)) :=
  ⟨(claim5_amended defaultConfig 0 20 (cwdMarker "u") (doneMarker "u") initLoopState
      ⟨0, true, "__MCP_CWD_u__:/tmp\n"⟩ [] (by decide) rfl (by decide)).1
      rfl "/tmp\n" rfl,
   (claim5_amended defaultConfig 0 20 (cwdMarker "u") (doneMarker "u") initLoopState
      ⟨0, true, "__MCP_DONE_u__:zzz\n"⟩ [] (by decide) rfl (by decide)).2.2
      rfl rfl⟩

/-- Claim C7: a `None`, empty or whitespace-only command makes
`execute_command` return `ok=false` synchronously, with the module state (the
stored session reference, hence also its process and everything written to
it) returned unchanged and the spawn counter untouched. -/
theorem claim7_blank (cmd : Option String) (timeoutSec : ℤ) (st : ServerState)
    (env : SpawnEnv) (k : Nat) (uid : String) (cfg : Config) (start : ℤ)
    (trace : List IterEvent) (t0 t1 : ℤ)
    (h : cmd = none ∨ ∃ c, cmd = some c ∧ pyStrip c = "") :
    pyExecuteCommand cmd timeoutSec st env k uid cfg start trace t0 t1 =
      some (.ok (emptyCommandResult, st, k)) ∧
    emptyCommandResult.ok = false ∧
    emptyCommandResult.error = some "empty command" := by
  rcases h with rfl | ⟨c, rfl, hc⟩
  · exact ⟨rfl, rfl, rfl⟩
  · exact ⟨by simp [pyExecuteCommand, hc], rfl, rfl⟩

theorem claim7_blank_witness :
    (some " \n " = (none : Option String) ∨
      ∃ c, some " \n " = some c ∧ pyStrip c = "") ∧
    (pyExecuteCommand (some " \n ") 20 ⟨some ⟨⟨7, true, true, true, []⟩⟩⟩
        ⟨fun _ => ⟨1, true, true, true, []⟩⟩ 0 "u" defaultConfig 0 [] 0 0 =
      some (.ok (emptyCommandResult, ⟨some ⟨⟨7, true, true, true, []⟩⟩⟩, 0))) :=
  ⟨Or.inr ⟨" \n ", rfl, rfl⟩,
   (claim7_blank (some " \n ") 20 ⟨some ⟨⟨7, true, true, true, []⟩⟩⟩
      ⟨fun _ => ⟨1, true, true, true, []⟩⟩ 0 "u" defaultConfig 0 [] 0 0
      (Or.inr ⟨" \n ", rfl, rfl⟩)).1⟩

/-- Claim C8 fails as stated: on the validation-error path the returned dict
carries no `truncated`, `cmd` or `duration_ms` key at all (modelled as the
`none` fields of `emptyCommandResult`), so not every result of
`execute_command` contains those fields. -/
theorem claim8_counterexample :
    pyExecuteCommand (some " ") 20 ⟨none⟩ ⟨fun _ => ⟨1, true, true, true, []⟩⟩ 0 "u"
        defaultConfig 0 [] 0 0 =
      some (.ok (emptyCommandResult, ⟨none⟩, 0)) ∧
    emptyCommandResult.truncated = none ∧
    emptyCommandResult.cmd = none ∧
    emptyCommandResult.duration_ms = none :=
  ⟨rfl, rfl, rfl, rfl⟩

/-- Claim C8, amended: on the non-validation paths every result of
`execute_command` carries `ok`, `stdout`, `exit_code`, `cwd_after`, a present
`truncated` flag, the echoed `cmd` and an integer `duration_ms`, with `error`
populated exactly when `ok=false`; the validation-error path instead returns
only `ok=false`, `error`, `stdout`, `exit_code` and `cwd_after` (no
`truncated`, `cmd` or `duration_ms` key). -/
theorem claim8_amended (cmd : Option String) (timeoutSec : ℤ) (st : ServerState)
    (env : SpawnEnv) (k : Nat) (uid : String) (cfg : Config) (start : ℤ)
    (trace : List IterEvent) (t0 t1 : ℤ) (r : ToolResult) (st' : ServerState) (k' : Nat)
    (h : pyExecuteCommand cmd timeoutSec st env k uid cfg start trace t0 t1 =
      some (.ok (r, st', k'))) :
    (r.ok = true → r.error = none) ∧
    (r.ok = false → ∃ msg, r.error = some msg) ∧
    ((cmd = none ∨ ∃ c, cmd = some c ∧ pyStrip c = "") → r = emptyCommandResult) ∧
    (∀ c, cmd = some c → ¬ pyStrip c = "" →
      r.cmd = some c ∧ r.duration_ms = some (durationMs t0 t1) ∧
      ∃ b, r.truncated = some b) := by
  cases cmd with
  | none =>
    simp only [pyExecuteCommand, Option.some.injEq, Except.ok.injEq, Prod.mk.injEq] at h
    obtain ⟨rfl, rfl, rfl⟩ := h
    refine ⟨fun hok => absurd hok (by decide), fun _ => ⟨"empty command", rfl⟩,
      fun _ => rfl, ?_⟩
    intro c hc
    exact absurd hc (by simp)
  | some c =>
    by_cases hb : pyStrip c = ""
    · simp only [pyExecuteCommand, hb, if_true, Option.some.injEq, Except.ok.injEq,
        Prod.mk.injEq] at h
      obtain ⟨rfl, rfl, rfl⟩ := h
      refine ⟨fun hok => absurd hok (by decide), fun _ => ⟨"empty command", rfl⟩,
        fun _ => rfl, ?_⟩
      intro c' hc' hne
      obtain rfl : c = c' := by injection hc'
      exact absurd hb hne
    · have h' := h
      simp only [pyExecuteCommand, hb] at h'
      cases hpe : pyExecute c timeoutSec st env k uid cfg start trace with
      | none => rw [hpe] at h'; simp at h'
      | some exr =>
        cases exr with
        | error e => rw [hpe] at h'; simp at h'
        | ok quad =>
          obtain ⟨rx, kd, stx, kx⟩ := quad
          rw [hpe] at h'
          simp only [Option.some.injEq, Except.ok.injEq, Prod.mk.injEq] at h'
          obtain ⟨rfl, rfl, rfl⟩ := h'
          obtain ⟨sess, hens, hstdin, hstx, sExit, hread⟩ :=
            pyExecute_ok_shape c timeoutSec st env k uid cfg start trace rx kd _ _ hpe
          have hpack := readLoop_spec cfg start timeoutSec (cwdMarker uid) (doneMarker uid)
            trace initLoopState (initLoopInv cfg) (.ok rx) sExit kd hread
          obtain ⟨_, _, hef, _, _⟩ := hpack
          obtain ⟨hok, herr, _hexc, _hcwd, htr, hcmd, hdur⟩ := finishResult_fields rx c t0 t1
          have hoe : (rx.ok = true → rx.error = none) ∧
              (rx.ok = false → ∃ msg, rx.error = some msg) := by
            cases kd with
            | timeoutK =>
              have hrx : rx = timeoutResult timeoutSec sExit := by simpa [ExitFacts] using hef
              subst hrx
              exact ⟨fun hc => by simp [timeoutResult] at hc,
                fun _ => ⟨timeoutMsg timeoutSec, rfl⟩⟩
            | eofK =>
              have hrx : rx = eofResult sExit := by simpa [ExitFacts] using hef
              subst hrx
              exact ⟨fun hc => by simp [eofResult] at hc,
                fun _ => ⟨"shell session ended unexpectedly", rfl⟩⟩
            | doneK =>
              have hrx : rx = doneResult sExit := by simpa [ExitFacts] using hef
              subst hrx
              exact ⟨fun _ => rfl, fun hc => by simp [doneResult] at hc⟩
            | crashK => simp [ExitFacts] at hef
          refine ⟨?_, ?_, ?_, ?_⟩
          · intro hrok
            rw [herr]
            exact hoe.1 (by rw [← hok]; exact hrok)
          · intro hrok
            obtain ⟨msg, hm⟩ := hoe.2 (by rw [← hok]; exact hrok)
            exact ⟨msg, by rw [herr]; exact hm⟩
          · rintro (h0 | ⟨c0, h0, hc0⟩)
            · exact absurd h0 (by simp)
            · obtain rfl : c = c0 := by injection h0
              exact absurd hc0 hb
          · intro c' hc' _
            obtain rfl : c = c' := by injection hc'
            exact ⟨hcmd, hdur, rx.truncated, htr⟩

theorem claim8_amended_witness :
    ((⟨true, none, "(ok)\n", some 0, none, some false, some "pwd", some 1000⟩ : ToolResult).cmd =
      some "pwd") ∧
    ((⟨true, none, "(ok)\n", some 0, none, some false, some "pwd",
        some 1000⟩ : ToolResult).duration_ms = some 1000) ∧
    (∃ b, (⟨true, none, "(ok)\n", some 0, none, some false, some "pwd",
        some 1000⟩ : ToolResult).truncated = some b) :=
  (claim8_amended (some "pwd") 20 ⟨none⟩ ⟨fun _ => ⟨1, true, true, true, []⟩⟩ 0 "u"
    defaultConfig 0 [⟨0, true, "__MCP_DONE_u__:0\n"⟩] 0 1
    ⟨true, none, "(ok)\n", some 0, none, some false, some "pwd", some 1000⟩
    ⟨some ⟨⟨1, true, true, true, ["export PS1=''\n", mkPayload "pwd" "u"]⟩⟩⟩ 1 rfl).2.2.2
    "pwd" rfl (by decide)

/-- Claim C9: `_stop_shell` never lets an exception escape (its outcome is
always `.ok`), clears the stored session reference unconditionally, and is a
no-op when no session exists; `terminate_terminal` therefore always returns
`ok=true` with no session left behind. -/
theorem claim9_terminate (st : ServerState) (env : StopEnv) :
    (pyStopShell st env).1 = Except.ok () ∧
    (pyStopShell st env).2.session = none ∧
    (st.session = none → (pyStopShell st env).2 = st) ∧
    (pyTerminateTerminal st env).1 =
      { ok := true, message := "terminal session terminated" } ∧
    (pyTerminateTerminal st env).2.session = none := by
  obtain ⟨sessOpt⟩ := st
  cases sessOpt with
  | none => exact ⟨rfl, rfl, fun _ => rfl, rfl, rfl⟩
  | some s0 =>
    refine ⟨?_, rfl, ?_, rfl, rfl⟩
    · cases hterm : env.terminateFails <;> cases hkill : env.killFails <;>
        simp [pyStopShell, tryTerminate, tryKill, hterm, hkill]
    · intro hcontra
      simp at hcontra

theorem claim9_terminate_witness :
    (pyStopShell ⟨some ⟨⟨7, true, true, true, []⟩⟩⟩ ⟨true, true⟩).1 = Except.ok () ∧
    (pyStopShell ⟨some ⟨⟨7, true, true, true, []⟩⟩⟩ ⟨true, true⟩).2.session = none ∧
    ((⟨some ⟨⟨7, true, true, true, []⟩⟩⟩ : ServerState).session = none →
      (pyStopShell ⟨some ⟨⟨7, true, true, true, []⟩⟩⟩ ⟨true, true⟩).2 =
        ⟨some ⟨⟨7, true, true, true, []⟩⟩⟩) ∧
    (pyTerminateTerminal ⟨some ⟨⟨7, true, true, true, []⟩⟩⟩ ⟨true, true⟩).1 =
      { ok := true, message := "terminal session terminated" } ∧
    (pyTerminateTerminal ⟨some ⟨⟨7, true, true, true, []⟩⟩⟩ ⟨true, true⟩).2.session = none :=
  claim9_terminate ⟨some ⟨⟨7, true, true, true, []⟩⟩⟩ ⟨true, true⟩

/-- Claim C10: whenever `initiate_terminal` returns (no exception), its dict
has `ok=true` and the fixed message, regardless of how the diagnostic `pwd`
execution fared; its `cwd` is the stripped captured stdout when nonempty and
otherwise the diagnostic's `cwd_after`, so when the diagnostic failed with no
captured output and no recorded directory (e.g. timeout or stream closure),
`cwd` is null while `ok` is still true. -/
theorem claim10_initiate (st : ServerState) (stopEnv : StopEnv) (env : SpawnEnv) (k : Nat)
    (uid : String) (cfg : Config) (start : ℤ) (trace : List IterEvent)
    (res : InitResult) (inner : ExecResult) (st' : ServerState) (k' : Nat)
    (h : pyInitiateTerminal st stopEnv env k uid cfg start trace =
      some (.ok (res, inner, st', k'))) :
    res.ok = true ∧
    res.message = "terminal session initiated" ∧
    res.cwd = (if pyStrip inner.stdout = "" then inner.cwd_after
               else some (pyStrip inner.stdout)) ∧
    (inner.ok = false → pyStrip inner.stdout = "" → inner.cwd_after = none →
      res.cwd = none) := by
  unfold pyInitiateTerminal at h
  cases hens : pyEnsureShell (pyStopShell st stopEnv).2 env k with
  | error e => simp [hens] at h
  | ok trip =>
    obtain ⟨sess1, st2, k2⟩ := trip
    simp only [hens] at h
    cases hpe : pyExecute "pwd" 8 st2 env k2 uid cfg start trace with
    | none => simp [hpe] at h
    | some exr =>
      cases exr with
      | error e => simp [hpe] at h
      | ok quad =>
        obtain ⟨r, kd, st3, k3⟩ := quad
        simp only [hpe, Option.some.injEq, Except.ok.injEq, Prod.mk.injEq] at h
        obtain ⟨rfl, rfl, rfl, rfl⟩ := h
        refine ⟨rfl, rfl, rfl, ?_⟩
        intro _ h2 h3
        simp [h2, h3]

theorem claim10_initiate_witness :
    ((⟨true, "terminal session initiated", none⟩ : InitResult).ok = true) ∧
    ((⟨true, "terminal session initiated", none⟩ : InitResult).message =
      "terminal session initiated") ∧
    ((⟨true, "terminal session initiated", none⟩ : InitResult).cwd = none) :=
  ⟨(claim10_initiate ⟨none⟩ ⟨false, false⟩ ⟨fun _ => ⟨1, true, true, true, []⟩⟩ 0 "u"
      defaultConfig 0 [⟨100, true, "x\n"⟩]
      ⟨true, "terminal session initiated", none⟩
      ⟨false, some (timeoutMsg 8), "", none, none, false⟩
      ⟨some ⟨⟨1, true, true, true, ["export PS1=''\n", mkPayload "pwd" "u"]⟩⟩⟩ 1 rfl).1,
   (claim10_initiate ⟨none⟩ ⟨false, false⟩ ⟨fun _ => ⟨1, true, true, true, []⟩⟩ 0 "u"
      defaultConfig 0 [⟨100, true, "x\n"⟩]
      ⟨true, "terminal session initiated", none⟩
      ⟨false, some (timeoutMsg 8), "", none, none, false⟩
      ⟨some ⟨⟨1, true, true, true, ["export PS1=''\n", mkPayload "pwd" "u"]⟩⟩⟩ 1 rfl).2.1,
   (claim10_initiate ⟨none⟩ ⟨false, false⟩ ⟨fun _ => ⟨1, true, true, true, []⟩⟩ 0 "u"
      defaultConfig 0 [⟨100, true, "x\n"⟩]
      ⟨true, "terminal session initiated", none⟩
      ⟨false, some (timeoutMsg 8), "", none, none, false⟩
      ⟨some ⟨⟨1, true, true, true, ["export PS1=''\n", mkPayload "pwd" "u"]⟩⟩⟩ 1 rfl).2.2.2
      rfl rfl rfl⟩

/-- Claim C3 fails as stated: with a spawn environment whose process lacks
usable pipes, `execute_command` does not return a structured `ok=false`
result — the `RuntimeError` raised inside `_start_shell` (no `try/except`
anywhere in `_execute` or `execute_command`) propagates uncaught out of the
tool function to the transport layer. -/
theorem claim3_counterexample :
    pyExecuteCommand (some "echo hi") 20 ⟨none⟩ ⟨fun _ => ⟨1, true, false, false, []⟩⟩ 0 "u"
        defaultConfig 0 [] 0 0 =
      some (.error "Failed to start shell with pipes") :=
  rfl

/-- Claim C3, amended: validation failures are rejected with a structured
`ok=false` result, a read-loop failure (timeout or stream closure) comes back
as a structured `ok=false` dict, and `terminate` never raises; a spawn
failure, however, propagates as an uncaught exception out of both
`execute_command` and `initiate_terminal` (whose own `_ensure_shell` call
runs after `_stop_shell` has cleared the session) to the transport layer
instead of being converted at the tool boundary. -/
theorem claim3_amended :
    (∀ (cmd : Option String) (timeoutSec : ℤ) (st : ServerState) (env : SpawnEnv) (k : Nat)
        (uid : String) (cfg : Config) (start : ℤ) (trace : List IterEvent) (t0 t1 : ℤ),
      (cmd = none ∨ ∃ c, cmd = some c ∧ pyStrip c = "") →
      pyExecuteCommand cmd timeoutSec st env k uid cfg start trace t0 t1 =
        some (.ok (emptyCommandResult, st, k)) ∧ emptyCommandResult.ok = false) ∧
    (∀ (c : String) (timeoutSec : ℤ) (st : ServerState) (env : SpawnEnv) (k : Nat)
        (uid : String) (cfg : Config) (start : ℤ) (trace : List IterEvent) (t0 t1 : ℤ)
        (res : ExecResult) (kind : ExitKind) (st' : ServerState) (k' : Nat),
      ¬ pyStrip c = "" →
      (kind = ExitKind.timeoutK ∨ kind = ExitKind.eofK) →
      pyExecute c timeoutSec st env k uid cfg start trace = some (.ok (res, kind, st', k')) →
      pyExecuteCommand (some c) timeoutSec st env k uid cfg start trace t0 t1 =
        some (.ok (finishResult res c t0 t1, st', k')) ∧
      (finishResult res c t0 t1).ok = false) ∧
    (∀ (c : String) (timeoutSec : ℤ) (env : SpawnEnv) (k : Nat) (uid : String) (cfg : Config)
        (start : ℤ) (trace : List IterEvent) (t0 t1 : ℤ) (msg : String),
      ¬ pyStrip c = "" → pyStartShell (env.spawn k) = .error msg →
      pyExecuteCommand (some c) timeoutSec ⟨none⟩ env k uid cfg start trace t0 t1 =
        some (.error msg)) ∧
    (∀ (st : ServerState) (stopEnv : StopEnv) (env : SpawnEnv) (k : Nat) (uid : String)
        (cfg : Config) (start : ℤ) (trace : List IterEvent) (msg : String),
      pyStartShell (env.spawn k) = .error msg →
      pyInitiateTerminal st stopEnv env k uid cfg start trace = some (.error msg)) ∧
    (∀ (st : ServerState) (env : StopEnv), (pyTerminateTerminal st env).1.ok = true) := by
  refine ⟨?_, ?_, ?_, ?_, fun st env => rfl⟩
  · intro cmd timeoutSec st env k uid cfg start trace t0 t1 hblank
    rcases hblank with rfl | ⟨c, rfl, hc⟩
    · exact ⟨rfl, rfl⟩
    · exact ⟨by simp [pyExecuteCommand, hc], rfl⟩
  · intro c timeoutSec st env k uid cfg start trace t0 t1 res kind st' k' hc hkind h
    obtain ⟨sess, hens, hstdin, hst', sExit, hread⟩ :=
      pyExecute_ok_shape c timeoutSec st env k uid cfg start trace res kind st' k' h
    have hpack := readLoop_spec cfg start timeoutSec (cwdMarker uid) (doneMarker uid)
      trace initLoopState (initLoopInv cfg) (.ok res) sExit kind hread
    obtain ⟨_, _, hef, _, _⟩ := hpack
    have hokf : res.ok = false := by
      rcases hkind with rfl | rfl
      · have hres : res = timeoutResult timeoutSec sExit := by simpa [ExitFacts] using hef
        rw [hres]; rfl
      · have hres : res = eofResult sExit := by simpa [ExitFacts] using hef
        rw [hres]; rfl
    constructor
    · rw [hst']
      exact pyExecuteCommand_run c timeoutSec st env k uid cfg start trace t0 t1 sess k'
        res sExit kind hc hens hstdin hread
    · rw [(finishResult_fields res c t0 t1).1]
      exact hokf
  · intro c timeoutSec env k uid cfg start trace t0 t1 msg hc herr
    simp [pyExecuteCommand, pyExecute, pyEnsureShell, herr, hc]
  · intro st stopEnv env k uid cfg start trace msg herr
    have hens : pyEnsureShell (pyStopShell st stopEnv).2 env k = .error msg := by
      rw [stopShell_clears st stopEnv]
      simp [pyEnsureShell, herr]
    simp [pyInitiateTerminal, hens]

theorem claim3_amended_witness :
    (pyExecuteCommand (some " ") 20 ⟨none⟩ ⟨fun _ => ⟨1, true, true, true, []⟩⟩ 0 "u"
        defaultConfig 0 [] 0 0 =
      some (.ok (emptyCommandResult, ⟨none⟩, 0)) ∧ emptyCommandResult.ok = false) ∧
    (pyExecuteCommand (some "ls") 20 ⟨none⟩ ⟨fun _ => ⟨1, true, false, false, []⟩⟩ 0 "u"
        defaultConfig 0 [] 0 0 =
      some (.error "Failed to start shell with pipes")) ∧
    (pyInitiateTerminal ⟨none⟩ ⟨false, false⟩ ⟨fun _ => ⟨1, true, false, false, []⟩⟩ 0 "u"
        defaultConfig 0 [] =
      some (.error "Failed to start shell with pipes")) ∧
    ((pyTerminateTerminal ⟨none⟩ ⟨false, false⟩).1.ok = true) :=
  ⟨claim3_amended.1 (some " ") 20 ⟨none⟩ ⟨fun _ => ⟨1, true, true, true, []⟩⟩ 0 "u"
      defaultConfig 0 [] 0 0 (Or.inr ⟨" ", rfl, rfl⟩),
   claim3_amended.2.2.1 "ls" 20 ⟨fun _ => ⟨1, true, false, false, []⟩⟩ 0 "u"
      defaultConfig 0 [] 0 0 "Failed to start shell with pipes" (by decide) rfl,
   claim3_amended.2.2.2.1 ⟨none⟩ ⟨false, false⟩ ⟨fun _ => ⟨1, true, false, false, []⟩⟩ 0 "u"
      defaultConfig 0 [] "Failed to start shell with pipes" rfl,
   claim3_amended.2.2.2.2 ⟨none⟩ ⟨false, false⟩⟩

/-- Claim C4: if the stored session's process is still running, `_ensure_shell`
returns it unchanged (first conjunct); if no session exists or the stored
one's process has exited, any successful `_ensure_shell` hands back a freshly
spawned session, stores it, and consumed at least one spawn (second
conjunct); and an `execute_command` straight after `terminate_terminal`
succeeds with no `initiate` in between (third conjunct). -/
theorem claim4_ensure :
    (∀ (st : ServerState) (env : SpawnEnv) (k : Nat) (s0 : ShellSession),
      st.session = some s0 → s0.proc.running = true →
      pyEnsureShell st env k = .ok (s0, st, k)) ∧
    (∀ (st : ServerState) (env : SpawnEnv) (k : Nat),
      (st.session = none ∨ ∃ s0, st.session = some s0 ∧ s0.proc.running = false) →
      ∀ sess st1 k1, pyEnsureShell st env k = .ok (sess, st1, k1) →
        (∃ j, k ≤ j ∧ pyStartShell (env.spawn j) = .ok sess) ∧
        st1 = ⟨some sess⟩ ∧ k < k1) ∧
    (∀ (st : ServerState) (stopEnv : StopEnv) (env : SpawnEnv) (p : Proc) (t0 t1 : ℤ),
      env.spawn 0 = p → p.running = true → p.hasStdin = true → p.hasStdout = true →
      ∃ r st' k',
        pyExecuteCommand (some "pwd") 20 (pyTerminateTerminal st stopEnv).2 env 0 "u"
            defaultConfig 0 [⟨0, true, "__MCP_DONE_u__:0\n"⟩] t0 t1 =
          some (.ok (r, st', k')) ∧ r.ok = true ∧ r.exit_code = some 0) := by
  refine ⟨?_, ?_, ?_⟩
  · intro st env k s0 hs hrun
    obtain ⟨so⟩ := st
    cases so with
    | none => simp at hs
    | some s1 =>
      obtain rfl : s1 = s0 := by injection hs
      simp [pyEnsureShell, hrun]
  · intro st env k hd sess st1 k1 h
    have hst1 := ensure_stores st env k sess st1 k1 h
    rcases hd with hnone | ⟨s0, hsome, hdead⟩
    · obtain ⟨so⟩ := st
      obtain rfl : so = none := hnone
      simp only [pyEnsureShell] at h
      cases h1 : pyStartShell (env.spawn k) with
      | error e => simp [h1] at h
      | ok s1 =>
        simp only [h1] at h
        by_cases hr : s1.proc.running = false
        · simp only [if_pos hr] at h
          cases h2 : pyStartShell (env.spawn (k + 1)) with
          | error e => simp [h2] at h
          | ok s2 =>
            simp only [h2, Except.ok.injEq, Prod.mk.injEq] at h
            obtain ⟨rfl, -, rfl⟩ := h
            exact ⟨⟨k + 1, by omega, h2⟩, hst1, by omega⟩
        · simp only [if_neg hr, Except.ok.injEq, Prod.mk.injEq] at h
          obtain ⟨rfl, -, rfl⟩ := h
          exact ⟨⟨k, le_refl k, h1⟩, hst1, by omega⟩
    · obtain ⟨so⟩ := st
      obtain rfl : so = some s0 := hsome
      simp only [pyEnsureShell, if_pos hdead] at h
      cases h1 : pyStartShell (env.spawn k) with
      | error e => simp [h1] at h
      | ok s1 =>
        simp only [h1, Except.ok.injEq, Prod.mk.injEq] at h
        obtain ⟨rfl, -, rfl⟩ := h
        exact ⟨⟨k, le_refl k, h1⟩, hst1, by omega⟩
  · intro st stopEnv env p t0 t1 hsp hrun hin hout
    have hterm : (pyTerminateTerminal st stopEnv).2 = (⟨none⟩ : ServerState) :=
      stopShell_clears st stopEnv
    rw [hterm]
    have hens : pyEnsureShell ⟨none⟩ env 0 =
        .ok (⟨{ p with stdinLog := p.stdinLog ++ ["export PS1=''\n"] }⟩,
          ⟨some ⟨{ p with stdinLog := p.stdinLog ++ ["export PS1=''\n"] }⟩⟩, 1) := by
      simp [pyEnsureShell, pyStartShell, hsp, hin, hout, hrun]
    have hread : readUntilDone defaultConfig 0 20 (cwdMarker "u") (doneMarker "u")
        [⟨0, true, "__MCP_DONE_u__:0\n"⟩] =
        some (.ok ⟨true, none, "", some 0, none, false⟩,
          ⟨[], some 0, none, 0, 0, false⟩, .doneK) := rfl
    have hcmd : ¬ pyStrip "pwd" = "" := by decide
    have hstdin : (⟨{ p with stdinLog := p.stdinLog ++ ["export PS1=''\n"] }⟩ :
        ShellSession).proc.hasStdin = true := by simpa using hin
    refine ⟨finishResult ⟨true, none, "", some 0, none, false⟩ "pwd" t0 t1,
      ⟨some (pushStdin ⟨{ p with stdinLog := p.stdinLog ++ ["export PS1=''\n"] }⟩
        (mkPayload "pwd" "u"))⟩, 1,
      pyExecuteCommand_run "pwd" 20 ⟨none⟩ env 0 "u" defaultConfig 0
        [⟨0, true, "__MCP_DONE_u__:0\n"⟩] t0 t1
        ⟨{ p with stdinLog := p.stdinLog ++ ["export PS1=''\n"] }⟩ 1
        ⟨true, none, "", some 0, none, false⟩ ⟨[], some 0, none, 0, 0, false⟩ .doneK
        hcmd hens hstdin hread, ?_, ?_⟩
    · rw [(finishResult_fields ⟨true, none, "", some 0, none, false⟩ "pwd" t0 t1).1]
    · rw [(finishResult_fields ⟨true, none, "", some 0, none, false⟩ "pwd" t0 t1).2.2.1]

theorem claim4_ensure_witness :
    (pyEnsureShell ⟨some ⟨⟨5, true, true, true, []⟩⟩⟩ ⟨fun _ => ⟨1, true, true, true, []⟩⟩ 3 =
      .ok (⟨⟨5, true, true, true, []⟩⟩, ⟨some ⟨⟨5, true, true, true, []⟩⟩⟩, 3)) ∧
    (∃ r st' k',
      pyExecuteCommand (some "pwd") 20
          (pyTerminateTerminal ⟨some ⟨⟨5, true, true, true, []⟩⟩⟩ ⟨true, false⟩).2
          ⟨fun _ => ⟨1, true, true, true, []⟩⟩ 0 "u"
          defaultConfig 0 [⟨0, true, "__MCP_DONE_u__:0\n"⟩] 0 9 =
        some (.ok (r, st', k')) ∧ r.ok = true ∧ r.exit_code = some 0) :=
  ⟨claim4_ensure.1 ⟨some ⟨⟨5, true, true, true, []⟩⟩⟩ ⟨fun _ => ⟨1, true, true, true, []⟩⟩ 3
      ⟨⟨5, true, true, true, []⟩⟩ rfl rfl,
   claim4_ensure.2.2 ⟨some ⟨⟨5, true, true, true, []⟩⟩⟩ ⟨true, false⟩
      ⟨fun _ => ⟨1, true, true, true, []⟩⟩ ⟨1, true, true, true, []⟩ 0 9 rfl rfl rfl rfl⟩

end P1
